import Mathlib

/-!
# Verification of the bedrock-mantle CLI (`src/main.py`)

A shallow embedding of the interactive chat client in `src/main.py`.

The program is a single-threaded read-eval loop; the interesting state is
* completions mode: the ordered list of `{role, content}` message dicts,
* responses mode: the optional `previous_response_id` string.

Remote calls are modelled by oracles (`RemoteResult`): a call either returns a
value or raises an exception carrying a message.  A streamed remote call is
modelled by the list of events it yields plus an optional exception raised
mid-iteration after those events (`StreamOutcome`).  Terminal output
(`click.echo`) and `time.sleep` are recorded as an ordered list of `Ev` events.

Python-specific behaviors are modelled explicitly: `str.strip` as `pyStrip`,
`str.lower` as `pyLower`, truthiness of `str | None` (`None` and `""` falsy)
as `pyTruthyStrOpt`, absent attributes (duck typing / `hasattr`) as `Option`
fields.
-/

namespace Mantle

/-- An observable effect: `click.echo s` (with `nl` false for `nl=False`) or
`time.sleep seconds`. -/
inductive Ev where
  | echo (s : String) (nl : Bool)
  | sleep (seconds : Nat)
deriving DecidableEq

/-- A `{"role": ..., "content": ...}` message dict. -/
structure Msg where
  role : String
  content : String
deriving DecidableEq

/-- `EXIT_COMMANDS = frozenset({"/quit", "/q", "/exit", "/e"})` — src/main.py line 28. -/
def EXIT_COMMANDS : List String := ["/quit", "/q", "/exit", "/e"]

/-- Python truthiness of a `str | None` value: `None` and `""` are falsy. -/
def pyTruthyStrOpt : Option String → Bool
  | none => false
  | some s => s != ""

/-- Python `str.strip()`: drop leading and trailing whitespace, modelled over
the string's character list. -/
def pyStrip (s : String) : String :=
  ⟨((s.data.dropWhile Char.isWhitespace).reverse.dropWhile Char.isWhitespace).reverse⟩

/-- Python `str.lower()`: lower-case every character. -/
def pyLower (s : String) : String :=
  ⟨s.data.map Char.toLower⟩

/-- Result of one remote call: a normal return, or a raised exception whose
message is `e`. -/
inductive RemoteResult (α : Type) where
  | ok (a : α)
  | exn (e : String)
deriving DecidableEq

/-- A remote stream: the items it yields in order, and `raised = some e` when
iterating it raises an exception after those items (`raised = none` when the
iteration finishes normally). -/
structure StreamOutcome (α : Type) where
  items : List α
  raised : Option String
deriving DecidableEq

/-- Whether a loop iteration falls through to the next prompt (`cont`) or
terminates the loop (`brk`). -/
inductive LoopAction where
  | brk
  | cont
deriving DecidableEq

/-- `click.echo(f"\nError: {e}")` — the inline per-turn error report
(src/main.py lines 341 and 462). -/
def errEcho (e : String) : List Ev := [Ev.echo ("\nError: " ++ e) true]

/-! ## Chat Completions loop (`run_chat_completions`, lines 273-345) -/

/-- Oracle for the remote calls one completions-mode turn may make.
`createStream` models `client.chat.completions.create(..., stream=True)`:
each yielded chunk is its `choices[0].delta.content` (`none` for Python
`None`, which is skipped).  `createPlain` models the non-streaming call and
carries `response.choices[0].message.content`. -/
structure ChatOracle where
  createStream : RemoteResult (StreamOutcome (Option String))
  createPlain : RemoteResult String
deriving DecidableEq

/-- Text accumulated from streamed chunks (lines 321-325): `None` contents are
skipped, the rest concatenated in order. -/
def chunkText (chunks : List (Option String)) : String :=
  chunks.foldl (fun acc c => match c with | some s => acc ++ s | none => acc) ""

/-- Echo events produced while streaming chunks (line 324). -/
def chunkEchoes (chunks : List (Option String)) : List Ev :=
  chunks.filterMap (fun c => c.map (fun s => Ev.echo s false))

/-- Result of one iteration of the completions loop body. -/
structure ChatStep where
  messages : List Msg
  action : LoopAction
  out : List Ev
deriving DecidableEq

/-- `messages = [{"role": "system", "content": system}]` — line 280. -/
def run_chat_completions_init (system : String) : List Msg :=
  [⟨"system", system⟩]

/-- One iteration of the `while True` loop body of `run_chat_completions`
(lines 282-345).  `rawInput` is the line returned by `click.prompt` (the code
applies `.strip()`).  Dispatch: empty input → no-op; exit commands → break;
`/clear` → reset history; `/status` → print settings; otherwise append the
user message, perform the remote call, and on success append the assistant
reply while on an exception print the error and `messages.pop()` the
just-appended user message. -/
def run_chat_completions_step (model system : String) (stream : Bool)
    (messages : List Msg) (rawInput : String) (o : ChatOracle) : ChatStep :=
  let user_input := pyStrip rawInput
  if user_input = "" then ⟨messages, .cont, []⟩
  else if pyLower user_input ∈ EXIT_COMMANDS then
    ⟨messages, .brk, [.echo "Goodbye!" true]⟩
  else if pyLower user_input = "/clear" then
    ⟨[⟨"system", system⟩], .cont, [.echo "Conversation cleared.\n" true]⟩
  else if pyLower user_input = "/status" then
    ⟨messages, .cont,
      [.echo "API: Chat Completions (stateless)" true,
       .echo ("Model: " ++ model) true,
       .echo ("Messages in history: " ++ toString messages.length) true,
       .echo "" true]⟩
  else
    let messages1 := messages ++ [⟨"user", user_input⟩]
    let header : List Ev := [.echo "" true, .echo "Assistant: " false]
    let result : List Msg × List Ev :=
      if stream then
        match o.createStream with
        | .exn e => (messages1.dropLast, errEcho e)
        | .ok s =>
          match s.raised with
          | some e => (messages1.dropLast, chunkEchoes s.items ++ errEcho e)
          | none =>
            (messages1 ++ [⟨"assistant", chunkText s.items⟩],
             chunkEchoes s.items ++ [Ev.echo "" true])
      else
        match o.createPlain with
        | .exn e => (messages1.dropLast, errEcho e)
        | .ok m => (messages1 ++ [⟨"assistant", m⟩], [Ev.echo m true])
    ⟨result.1, .cont, header ++ result.2 ++ [Ev.echo "" true]⟩

/-! ## Responses API response objects and text extraction
(`extract_response_text`, lines 71-97) -/

/-- An element of an output item's `content` list; `text` is `none` when the
object has no `text` attribute (`hasattr(content, "text")`). -/
structure ContentItem where
  text : Option String
deriving DecidableEq

/-- An element of a response's `output` list; `content` is `none` when the
object has no `content` attribute (`hasattr(output, "content")`). -/
structure OutputItem where
  content : Option (List ContentItem)
deriving DecidableEq

/-- A Responses API response object.  `output_text` is `none` when the object
has no `output_text` attribute (the code probes it with `hasattr`); `output`
is always present (the final `str(response.output)` on line 97 reads it
unconditionally, and the SDK response type guarantees it), with the Python
truthiness check `response.output` modelled as non-emptiness. -/
structure RespObj where
  id : String
  status : String
  output_text : Option String
  output : List OutputItem
deriving DecidableEq

/-- Model of Python `str(...)` on a content item. -/
def pyStrContentItem (c : ContentItem) : String :=
  match c.text with
  | some t => "Content(text=" ++ t ++ ")"
  | none => "Content()"

/-- Model of Python `str(...)` on an output item. -/
def pyStrOutputItem (o : OutputItem) : String :=
  match o.content with
  | some cs => "Output(content=[" ++ String.intercalate ", " (cs.map pyStrContentItem) ++ "])"
  | none => "Output()"

/-- Model of Python `str(response.output)` (line 97): list rendering. -/
def pyStrOutputList (l : List OutputItem) : String :=
  "[" ++ String.intercalate ", " (l.map pyStrOutputItem) ++ "]"

/-- The `text_parts` list built by the nested loops of lines 88-93: for each
output item with a `content` attribute, every content element's `text`
attribute, in order. -/
def text_fragments (output : List OutputItem) : List String :=
  output.foldl
    (fun acc o =>
      match o.content with
      | some cs => acc ++ cs.filterMap (fun c => c.text)
      | none => acc) []

/-- `extract_response_text` (lines 71-97): prefer the `output_text` attribute;
otherwise, when `response.output` is truthy (non-empty) and text fragments
exist, return their concatenation; otherwise `str(response.output)`. -/
def extract_response_text (response : RespObj) : String :=
  match response.output_text with
  | some t => t
  | none =>
    if response.output ≠ [] then
      let text_parts := text_fragments response.output
      if text_parts ≠ [] then String.join text_parts
      else pyStrOutputList response.output
    else pyStrOutputList response.output

/-! ## Streaming event processing (`process_streaming_events`, lines 31-68) -/

/-- The `event.response` attribute of a `response.completed` event; its `id`
is `none` when absent (`hasattr(event.response, "id")`). -/
structure RespRef where
  id : Option String
deriving DecidableEq

/-- A streaming event.  Each field is `none` when the corresponding attribute
is absent (the code probes `type`, `delta`, `response` and `id` with
`hasattr`). -/
structure StreamEvent where
  type : Option String
  delta : Option String
  response : Option RespRef
  id : Option String
deriving DecidableEq

/-- The `for event in stream_response` loop of `process_streaming_events`
(lines 47-65), threading the accumulated text and the captured response
identifier, and recording the echoes produced along the way. -/
def processEventsFrom (text : String) (rid : Option String) :
    List StreamEvent → String × Option String × List Ev
  | [] => (text, rid, [])
  | e :: rest =>
    let step : String × Option String × List Ev :=
      match e.type with
      | some ty =>
        if ty = "response.output_text.delta" then
          match e.delta with
          | some d => (text ++ d, rid, [Ev.echo d false])
          | none => (text, rid, [])
        else if ty = "response.completed" then
          match e.response with
          | some r =>
            match r.id with
            | some i => (text, some i, [])
            | none => (text, rid, [])
          | none => (text, rid, [])
        else if ty = "response.queued" then (text, rid, [Ev.echo "[Queued...]" false])
        else if ty = "response.in_progress" then (text, rid, [Ev.echo "[Processing...]" false])
        else (text, rid, [])
      | none =>
        match e.delta with
        | some d => (text ++ d, rid, [Ev.echo d false])
        | none =>
          match e.id with
          | some i => (text, some i, [])
          | none => (text, rid, [])
    let rest' := processEventsFrom step.1 step.2.1 rest
    (rest'.1, rest'.2.1, step.2.2 ++ rest'.2.2)

/-- `process_streaming_events` (lines 31-68): consume the whole event
sequence starting from empty text and no identifier, then print the final
newline (`click.echo()`, line 67). -/
def process_streaming_events (events : List StreamEvent) :
    String × Option String × List Ev :=
  let r := processEventsFrom "" none events
  (r.1, r.2.1, r.2.2 ++ [Ev.echo "" true])

/-! ## Responses API loop (`run_responses_api`, lines 348-464) -/

/-- Oracle for the remote calls one responses-mode turn may make:
`client.responses.create` with `stream=True` (a stream of events),
`client.responses.create` without streaming (a response object), and the
successive results of `client.responses.retrieve` while polling. -/
structure RespOracle where
  createStream : RemoteResult (StreamOutcome StreamEvent)
  createPlain : RemoteResult RespObj
  retrieves : List (RemoteResult RespObj)
deriving DecidableEq

/-- The `request_params` dict built on lines 388-405.  A `background` or
`stream` key that the code never sets is modelled as `false`; a
`previous_response_id` key not added (the guard `if previous_response_id:`
is Python truthiness) is modelled as `none`. -/
structure RequestParams where
  model : String
  input : List Msg
  previous_response_id : Option String
  background : Bool
  stream : Bool
deriving DecidableEq

/-- Lines 388-405: build `input_messages` (system message appended only when
`previous_response_id is None`, then the user message) and the request
parameters (the `previous_response_id` key added only when the held value is
truthy). -/
def build_request_params (model system user_input : String)
    (previous_response_id : Option String) (background stream : Bool) : RequestParams :=
  let input_messages : List Msg :=
    if previous_response_id = none then [⟨"system", system⟩] else []
  let input_messages := input_messages ++ [⟨"user", user_input⟩]
  { model := model
    input := input_messages
    previous_response_id :=
      if pyTruthyStrOpt previous_response_id then previous_response_id else none
    background := background
    stream := stream }

/-- `if response_id: previous_response_id = response_id`
(lines 416-417 and 452-453). -/
def update_prev_from_stream (previous_response_id captured : Option String) :
    Option String :=
  if pyTruthyStrOpt captured then captured else previous_response_id

/-- A streaming turn body (lines 413-417, identically lines 449-453): create
the stream and consume its events.  A raise during iteration aborts the
consumption after the yielded events, before the final newline and before the
identifier update; the exception is handled by the enclosing `except`. -/
def stream_turn (previous_response_id : Option String)
    (call : RemoteResult (StreamOutcome StreamEvent)) : Option String × List Ev :=
  match call with
  | .exn e => (previous_response_id, errEcho e)
  | .ok s =>
    let r := processEventsFrom "" none s.items
    match s.raised with
    | some e => (previous_response_id, r.2.2 ++ errEcho e)
    | none =>
      (update_prev_from_stream previous_response_id r.2.1,
       r.2.2 ++ [Ev.echo "" true])

/-- Result of the polling loop: the final (non-pending) response together
with the final `poll_count` and the recorded sleeps and progress markers; or
an exception raised by a `retrieve` call; or `starved`, a model artifact
meaning the oracle's list of retrieve results ran out while the status was
still pending (the real loop would keep polling). -/
inductive PollOutcome where
  | done (final : RespObj) (count : Nat) (evs : List Ev)
  | raised (e : String) (evs : List Ev)
  | starved (evs : List Ev)
deriving DecidableEq

/-- Prepend events already produced to a poll outcome's event list. -/
def PollOutcome.withEvs (pre : List Ev) : PollOutcome → PollOutcome
  | .done f c evs => .done f c (pre ++ evs)
  | .raised e evs => .raised e (pre ++ evs)
  | .starved evs => .starved (pre ++ evs)

/-- The polling loop of lines 427-432:
`while response.status in ["queued", "in_progress"]: time.sleep(1);
poll_count += 1; if poll_count % 5 == 0: click.echo("."); response =
client.responses.retrieve(response_id)`. -/
def pollLoop (response : RespObj) (poll_count : Nat) :
    List (RemoteResult RespObj) → PollOutcome
  | [] =>
    if response.status = "queued" ∨ response.status = "in_progress" then
      .starved []
    else .done response poll_count []
  | f :: rest =>
    if response.status = "queued" ∨ response.status = "in_progress" then
      let c := poll_count + 1
      let pre := Ev.sleep 1 :: (if c % 5 = 0 then [Ev.echo "." false] else [])
      match f with
      | .exn e => .raised e pre
      | .ok r => (pollLoop r c rest).withEvs pre
    else .done response poll_count []

/-- The message-turn body of `run_responses_api` — the `try`/`except` of
lines 387-462 after the request has been built: the four request shapes
selected by `background` × `stream`, with the `except` clause printing the
error inline and leaving `previous_response_id` untouched.  Returns the
updated identifier and the produced output; `none` is the model artifact of
`pollLoop` starving (the real iteration would still be polling). -/
def responses_message_turn (stream background : Bool)
    (previous_response_id : Option String) (o : RespOracle) :
    Option (Option String × List Ev) :=
  if background then
    if stream then some (stream_turn previous_response_id o.createStream)
    else
      match o.createPlain with
      | .exn e => some (previous_response_id, errEcho e)
      | .ok response =>
        let response_id := response.id
        let startEv : List Ev := [Ev.echo "[Background processing started...]" false]
        match pollLoop response 0 o.retrieves with
        | .starved _ => none
        | .raised e evs => some (previous_response_id, startEv ++ evs ++ errEcho e)
        | .done final _ evs =>
          let tail : List Ev := [Ev.echo "" true, Ev.echo "Assistant: " false]
          if final.status = "completed" then
            some (some response_id,
              startEv ++ evs ++ tail ++ [Ev.echo (extract_response_text final) true])
          else if final.status = "failed" then
            some (previous_response_id,
              startEv ++ evs ++ tail
                ++ [Ev.echo ("[Background task failed: " ++ final.status ++ "]") true])
          else if final.status = "cancelled" then
            some (previous_response_id,
              startEv ++ evs ++ tail ++ [Ev.echo "[Background task was cancelled]" true])
          else
            some (previous_response_id,
              startEv ++ evs ++ tail
                ++ [Ev.echo ("[Unexpected status: " ++ final.status ++ "]") true])
  else if stream then some (stream_turn previous_response_id o.createStream)
  else
    match o.createPlain with
    | .exn e => some (previous_response_id, errEcho e)
    | .ok response =>
      some (some response.id, [Ev.echo (extract_response_text response) true])

/-- Result of one iteration of the responses loop body.  `request` records
the request parameters built for a message turn (`none` for command turns). -/
structure RespStep where
  prev : Option String
  action : LoopAction
  out : List Ev
  request : Option RequestParams
deriving DecidableEq

/-- One iteration of the `while True` loop body of `run_responses_api`
(lines 359-464).  Returns `none` only for the model artifact where the
background polling oracle is exhausted while the job is still pending (the
real iteration would still be inside the polling loop). -/
def run_responses_api_step (model system : String) (stream background : Bool)
    (previous_response_id : Option String) (rawInput : String) (o : RespOracle) :
    Option RespStep :=
  let user_input := pyStrip rawInput
  if user_input = "" then some ⟨previous_response_id, .cont, [], none⟩
  else if pyLower user_input ∈ EXIT_COMMANDS then
    some ⟨previous_response_id, .brk, [.echo "Goodbye!" true], none⟩
  else if pyLower user_input = "/clear" then
    some ⟨none, .cont,
      [.echo "Conversation cleared (stateful context reset).\n" true], none⟩
  else if pyLower user_input = "/status" then
    some ⟨previous_response_id, .cont,
      [.echo "API: Responses (stateful)" true,
       .echo ("Model: " ++ model) true,
       .echo ("Background: " ++ (if background then "enabled" else "disabled")) true,
       .echo ("Previous response ID: "
         ++ (if pyTruthyStrOpt previous_response_id then previous_response_id.getD ""
             else "None (new conversation)")) true,
       .echo "" true], none⟩
  else
    let header : List Ev := [Ev.echo "" true, Ev.echo "Assistant: " false]
    let request_params :=
      build_request_params model system user_input previous_response_id background stream
    match responses_message_turn stream background previous_response_id o with
    | none => none
    | some pb =>
      some ⟨pb.1, .cont, header ++ pb.2 ++ [Ev.echo "" true], some request_params⟩

/-! ## Spec-side comparison definitions

These definitions transcribe the *spec's words* (not the source); they exist
to be compared with the source-derived functions above. -/

/-- Spec wording (streaming): the accumulated text is the in-order
concatenation of the delta payloads of events with type `output_text.delta`
and of type-less events carrying a bare `delta` attribute. -/
def spec_streamed_text : List StreamEvent → String
  | [] => ""
  | e :: rest =>
    (match e.type with
     | some ty => if ty = "response.output_text.delta" then e.delta.getD "" else ""
     | none => e.delta.getD "") ++ spec_streamed_text rest

/-- Spec wording, as written in the claim: the identifier updates come from
`completed` events (their nested response identifier) and from type-less
events carrying a bare `id` attribute. -/
def spec_id_updates_claimed : List StreamEvent → List String
  | [] => []
  | e :: rest =>
    (match e.type with
     | some ty =>
       if ty = "response.completed" then
         (match e.response with
          | some r => r.id.toList
          | none => [])
       else []
     | none => e.id.toList) ++ spec_id_updates_claimed rest

/-- Amended spec wording: as `spec_id_updates_claimed`, except that a
type-less event carrying a `delta` attribute is handled as a delta event and
its `id` attribute is ignored. -/
def spec_id_updates : List StreamEvent → List String
  | [] => []
  | e :: rest =>
    (match e.type with
     | some ty =>
       if ty = "response.completed" then
         (match e.response with
          | some r => r.id.toList
          | none => [])
       else []
     | none =>
       match e.delta with
       | some _ => []
       | none => e.id.toList) ++ spec_id_updates rest

/-- "The last such event winning": the last element of an update list, or the
fallback when no update occurred. -/
def lastOr : List String → Option String → Option String
  | [], r => r
  | i :: t, _ => lastOr t (some i)

/-- Spec wording: the echoes produced per event — delta payloads inline,
`[Queued...]` / `[Processing...]` status markers for `queued` / `in_progress`
events, nothing otherwise. -/
def spec_streamed_out : List StreamEvent → List Ev
  | [] => []
  | e :: rest =>
    (match e.type with
     | some ty =>
       if ty = "response.output_text.delta" then
         (match e.delta with | some d => [Ev.echo d false] | none => [])
       else if ty = "response.queued" then [Ev.echo "[Queued...]" false]
       else if ty = "response.in_progress" then [Ev.echo "[Processing...]" false]
       else []
     | none => (match e.delta with | some d => [Ev.echo d false] | none => []))
      ++ spec_streamed_out rest

/-- Spec wording: the trace of `k` further polls after `c` polls already
happened — a 1-unit sleep before each re-fetch, and a `"."` progress marker
exactly after every poll whose ordinal is a multiple of 5. -/
def spec_poll_trace_from (c : Nat) : Nat → List Ev
  | 0 => []
  | k + 1 =>
    (Ev.sleep 1 :: (if (c + 1) % 5 = 0 then [Ev.echo "." false] else []))
      ++ spec_poll_trace_from (c + 1) k

/-- Spec wording: the trace of `n` polls — a 1-unit sleep before each
re-fetch, and a `"."` marker exactly after polls 5, 10, 15, .... -/
def spec_poll_trace (n : Nat) : List Ev := spec_poll_trace_from 0 n

/-! ## The `chat` command prelude (lines 208-257) -/

/-- Outcome of the `chat` command's prelude, before the interactive loop. -/
structure ChatCommandStart where
  error : Option String
  exit_code : Nat
  client_created : Bool
deriving DecidableEq

/-- Model of the prelude of the `chat` command (lines 228-257): it computes
`stream = not no_stream`, then validates the flag combination — raising
`ClickException` when `background and completions` — and only afterwards
prints the banner and constructs the client via `create_client()`.
The CLI framework turns a raised `ClickException` into a nonzero process exit
(modelled from the spec: "exits non-zero"); on the rejection path
`create_client` is never reached, so no client is constructed and no network
call is attempted. -/
def chat_command_start (no_stream completions background : Bool) : ChatCommandStart :=
  let stream := !no_stream
  if background && completions then
    { error := some ("Background processing is only available with the Responses API.\n"
        ++ "Remove --completions to use background mode.")
      exit_code := 1
      client_created := false }
  else
    let _ := stream
    { error := none, exit_code := 0, client_created := true }

/-! ## Claim theorems -/

/-- C7: invoking the chat command with both `--completions` and `--background`
terminates with a non-zero exit code and an error message naming the Responses
API as the mode required for background processing, and no client is
constructed (hence no network call is attempted) before this rejection. -/
theorem C7_completions_background_rejected :
    ∀ no_stream : Bool,
      (chat_command_start no_stream true true).exit_code ≠ 0
      ∧ (∃ m, (chat_command_start no_stream true true).error = some m
          ∧ ∃ pre post, m = pre ++ "Responses API" ++ post)
      ∧ (chat_command_start no_stream true true).client_created = false := by
  intro no_stream
  cases no_stream <;>
    exact ⟨by decide, ⟨_, rfl,
      "Background processing is only available with the ",
      ".\nRemove --completions to use background mode.", by decide⟩, rfl⟩

/-- C9: in completions mode, after processing a `/clear` command the message
list equals exactly the one-element list containing the configured system
message, for every prior history (and the loop continues). -/
theorem C9_clear_resets_history (model system : String) (stream : Bool)
    (messages : List Msg) (rawInput : String) (o : ChatOracle)
    (h : pyLower (pyStrip rawInput) = "/clear") :
    (run_chat_completions_step model system stream messages rawInput o).messages
      = [⟨"system", system⟩]
    ∧ (run_chat_completions_step model system stream messages rawInput o).action
      = .cont := by
  have hne : ¬(pyStrip rawInput = "") := by
    intro h0
    rw [h0] at h
    exact absurd h (by decide)
  have hexit : ¬(pyLower (pyStrip rawInput) ∈ EXIT_COMMANDS) := by
    rw [h]; decide
  unfold run_chat_completions_step
  rw [if_neg hne, if_neg hexit, if_pos h]
  exact ⟨rfl, rfl⟩

/-- Witness for C9 at a concrete mixed-case input and a three-entry history. -/
theorem C9_clear_resets_history_witness :
    (run_chat_completions_step "m" "sys" true
        [⟨"system", "sys"⟩, ⟨"user", "a"⟩, ⟨"assistant", "b"⟩] " /Clear "
        ⟨RemoteResult.exn "x", RemoteResult.exn "x"⟩).messages = [⟨"system", "sys"⟩]
    ∧ (run_chat_completions_step "m" "sys" true
        [⟨"system", "sys"⟩, ⟨"user", "a"⟩, ⟨"assistant", "b"⟩] " /Clear "
        ⟨RemoteResult.exn "x", RemoteResult.exn "x"⟩).action = .cont :=
  C9_clear_resets_history "m" "sys" true
    [⟨"system", "sys"⟩, ⟨"user", "a"⟩, ⟨"assistant", "b"⟩] " /Clear "
    ⟨RemoteResult.exn "x", RemoteResult.exn "x"⟩ (by decide)

/-- C6: text extraction returns the `output_text` field when present;
otherwise, when the structured output is non-empty and contains text
fragments, the in-order concatenation of all fragments; otherwise the raw
string conversion of the structured `output` field. -/
theorem C6_extract_response_text (r : RespObj) :
    (∀ t, r.output_text = some t → extract_response_text r = t)
    ∧ (r.output_text = none → r.output ≠ [] → text_fragments r.output ≠ [] →
        extract_response_text r = String.join (text_fragments r.output))
    ∧ (r.output_text = none → text_fragments r.output = [] →
        extract_response_text r = pyStrOutputList r.output) := by
  refine ⟨?_, ?_, ?_⟩
  · intro t ht
    simp [extract_response_text, ht]
  · intro h0 h1 h2
    simp [extract_response_text, h0, h1, h2]
  · intro h0 h2
    by_cases h1 : r.output = []
    · simp [extract_response_text, h0, h1]
    · simp [extract_response_text, h0, h1, h2]

/-- Witness for C6: fragment concatenation on a concrete response without the
`output_text` attribute. -/
theorem C6_extract_response_text_witness :
    extract_response_text
        ⟨"i", "completed", none, [⟨some [⟨some "a"⟩, ⟨none⟩]⟩, ⟨some [⟨some "b"⟩]⟩]⟩
      = "ab" :=
  (C6_extract_response_text
      ⟨"i", "completed", none, [⟨some [⟨some "a"⟩, ⟨none⟩]⟩, ⟨some [⟨some "b"⟩]⟩]⟩).2.1
    rfl (by decide) (by decide)

/-- Popping the element just appended behind a non-empty prefix restores the
prefix (`messages.pop()` after `messages.append(...)`). -/
theorem dropLast_cons_concat {α : Type} (a : α) (l : List α) (b : α) :
    (a :: (l ++ [b])).dropLast = a :: l := by
  rw [← List.cons_append, List.dropLast_concat]

/-- The implicit invariant of the completions history: non-empty, with the
configured system message first. -/
def completions_history_inv (system : String) (messages : List Msg) : Prop :=
  messages ≠ [] ∧ messages.head? = some ⟨"system", system⟩

/-- C10: the completions message list is always non-empty with the system
message first: the invariant holds initially and is preserved by every loop
iteration — successful turns only append, `/clear` rebuilds the list from the
same prompt, and failed-turn rollback pops only the user message appended in
the same turn. -/
theorem C10_system_head_invariant (model system : String) (stream : Bool)
    (messages : List Msg) (rawInput : String) (o : ChatOracle)
    (h : completions_history_inv system messages) :
    completions_history_inv system (run_chat_completions_init system)
    ∧ completions_history_inv system
        (run_chat_completions_step model system stream messages rawInput o).messages := by
  obtain ⟨hne, hhead⟩ := h
  cases messages with
  | nil => exact absurd rfl hne
  | cons m0 tail =>
    have hm0 : m0 = ⟨"system", system⟩ := by simpa using hhead
    subst hm0
    refine ⟨⟨by simp [run_chat_completions_init], rfl⟩, ?_⟩
    unfold run_chat_completions_step
    by_cases h1 : pyStrip rawInput = ""
    · rw [if_pos h1]; exact ⟨by simp, rfl⟩
    rw [if_neg h1]
    by_cases h2 : pyLower (pyStrip rawInput) ∈ EXIT_COMMANDS
    · rw [if_pos h2]; exact ⟨by simp, rfl⟩
    rw [if_neg h2]
    by_cases h3 : pyLower (pyStrip rawInput) = "/clear"
    · rw [if_pos h3]; exact ⟨by simp, rfl⟩
    rw [if_neg h3]
    by_cases h4 : pyLower (pyStrip rawInput) = "/status"
    · rw [if_pos h4]; exact ⟨by simp, rfl⟩
    rw [if_neg h4]
    by_cases h5 : stream
    · cases hc : o.createStream with
      | ok s =>
        cases hr : s.raised with
        | some e => simp [h5, hc, hr, dropLast_cons_concat, completions_history_inv]
        | none => simp [h5, hc, hr, completions_history_inv]
      | exn e => simp [h5, hc, dropLast_cons_concat, completions_history_inv]
    · cases hc : o.createPlain with
      | ok m => simp [h5, hc, completions_history_inv]
      | exn e => simp [h5, hc, dropLast_cons_concat, completions_history_inv]

/-- Witness for C10 on a concrete history and a failing streamed turn. -/
theorem C10_system_head_invariant_witness :
    completions_history_inv "sys" (run_chat_completions_init "sys")
    ∧ completions_history_inv "sys"
        (run_chat_completions_step "m" "sys" true [⟨"system", "sys"⟩, ⟨"user", "a"⟩]
          "hello" ⟨RemoteResult.exn "down", RemoteResult.exn "down"⟩).messages :=
  C10_system_head_invariant "m" "sys" true [⟨"system", "sys"⟩, ⟨"user", "a"⟩]
    "hello" ⟨RemoteResult.exn "down", RemoteResult.exn "down"⟩
    ⟨by decide, by decide⟩

/-- C1: in completions mode, on any turn whose remote chat-completion call
raises (at the call or mid-stream), the error is printed inline, the
just-appended user message is removed — the message list after the failed
turn equals (in length and contents) the list before the turn — and the loop
continues. -/
theorem C1_completions_error_rollback (model system : String) (stream : Bool)
    (messages : List Msg) (rawInput : String) (o : ChatOracle) (e : String)
    (hne : pyStrip rawInput ≠ "")
    (hexit : pyLower (pyStrip rawInput) ∉ EXIT_COMMANDS)
    (hclear : pyLower (pyStrip rawInput) ≠ "/clear")
    (hstatus : pyLower (pyStrip rawInput) ≠ "/status")
    (hraise :
      (stream = true ∧ (o.createStream = .exn e
         ∨ ∃ items, o.createStream = .ok ⟨items, some e⟩))
      ∨ (stream = false ∧ o.createPlain = .exn e)) :
    (run_chat_completions_step model system stream messages rawInput o).messages = messages
    ∧ (run_chat_completions_step model system stream messages rawInput o).messages.length
        = messages.length
    ∧ (run_chat_completions_step model system stream messages rawInput o).action = .cont
    ∧ Ev.echo ("\nError: " ++ e) true
        ∈ (run_chat_completions_step model system stream messages rawInput o).out := by
  unfold run_chat_completions_step
  rw [if_neg hne, if_neg hexit, if_neg hclear, if_neg hstatus]
  rcases hraise with ⟨hs, hcall | ⟨items, hcall⟩⟩ | ⟨hs, hcall⟩ <;>
    subst hs <;>
    simp [hcall, List.dropLast_concat, errEcho]

/-- Witness for C1: a concrete failing streamed turn from a one-message
history rolls back to exactly that history. -/
theorem C1_completions_error_rollback_witness :
    (run_chat_completions_step "m" "sys" true [⟨"system", "sys"⟩] "hi"
        ⟨RemoteResult.exn "boom", RemoteResult.exn "boom"⟩).messages
      = [⟨"system", "sys"⟩]
    ∧ (run_chat_completions_step "m" "sys" true [⟨"system", "sys"⟩] "hi"
        ⟨RemoteResult.exn "boom", RemoteResult.exn "boom"⟩).messages.length = 1
    ∧ (run_chat_completions_step "m" "sys" true [⟨"system", "sys"⟩] "hi"
        ⟨RemoteResult.exn "boom", RemoteResult.exn "boom"⟩).action = .cont
    ∧ Ev.echo ("\nError: " ++ "boom") true
        ∈ (run_chat_completions_step "m" "sys" true [⟨"system", "sys"⟩] "hi"
            ⟨RemoteResult.exn "boom", RemoteResult.exn "boom"⟩).out :=
  C1_completions_error_rollback "m" "sys" true [⟨"system", "sys"⟩] "hi"
    ⟨RemoteResult.exn "boom", RemoteResult.exn "boom"⟩ "boom"
    (by decide) (by decide) (by decide) (by decide) (Or.inl ⟨rfl, Or.inl rfl⟩)

/-- Unfolding of `run_responses_api_step` on a message turn (input non-empty
and not a recognized command). -/
theorem run_responses_api_step_message (model system : String)
    (stream background : Bool) (prev : Option String) (rawInput : String)
    (o : RespOracle)
    (hne : pyStrip rawInput ≠ "")
    (hexit : pyLower (pyStrip rawInput) ∉ EXIT_COMMANDS)
    (hclear : pyLower (pyStrip rawInput) ≠ "/clear")
    (hstatus : pyLower (pyStrip rawInput) ≠ "/status") :
    run_responses_api_step model system stream background prev rawInput o
      = match responses_message_turn stream background prev o with
        | none => none
        | some pb =>
          some ⟨pb.1, .cont,
            [Ev.echo "" true, Ev.echo "Assistant: " false] ++ pb.2 ++ [Ev.echo "" true],
            some (build_request_params model system (pyStrip rawInput) prev
              background stream)⟩ := by
  unfold run_responses_api_step
  rw [if_neg hne, if_neg hexit, if_neg hclear, if_neg hstatus]

/-- C8: in both chat loops, any input whose stripped, lowercased form is one
of `/quit`, `/q`, `/exit`, `/e` terminates the loop after printing a farewell
(matching is case-insensitive), and every other non-empty input that is not a
recognized in-session command does not terminate the loop. -/
theorem C8_exit_commands (model system : String) (stream background : Bool)
    (messages : List Msg) (prev : Option String) (rawInput : String)
    (co : ChatOracle) (ro : RespOracle) :
    (pyLower (pyStrip rawInput) ∈ EXIT_COMMANDS →
      (run_chat_completions_step model system stream messages rawInput co).action = .brk
      ∧ Ev.echo "Goodbye!" true
          ∈ (run_chat_completions_step model system stream messages rawInput co).out
      ∧ run_responses_api_step model system stream background prev rawInput ro
          = some ⟨prev, .brk, [.echo "Goodbye!" true], none⟩)
    ∧ (pyStrip rawInput ≠ "" → pyLower (pyStrip rawInput) ∉ EXIT_COMMANDS →
        pyLower (pyStrip rawInput) ≠ "/clear" → pyLower (pyStrip rawInput) ≠ "/status" →
        (run_chat_completions_step model system stream messages rawInput co).action = .cont
        ∧ ∀ res, run_responses_api_step model system stream background prev rawInput ro
            = some res → res.action = .cont) := by
  constructor
  · intro hmem
    have hne : pyStrip rawInput ≠ "" := by
      intro h0
      rw [h0] at hmem
      exact absurd hmem (by decide)
    have hc : run_chat_completions_step model system stream messages rawInput co
        = ⟨messages, .brk, [.echo "Goodbye!" true]⟩ := by
      unfold run_chat_completions_step
      rw [if_neg hne, if_pos hmem]
    have hr : run_responses_api_step model system stream background prev rawInput ro
        = some ⟨prev, .brk, [.echo "Goodbye!" true], none⟩ := by
      unfold run_responses_api_step
      rw [if_neg hne, if_pos hmem]
    rw [hc, hr]
    exact ⟨rfl, by simp, rfl⟩
  · intro hne hexit hclear hstatus
    refine ⟨?_, ?_⟩
    · unfold run_chat_completions_step
      rw [if_neg hne, if_neg hexit, if_neg hclear, if_neg hstatus]
    · intro res hres
      rw [run_responses_api_step_message model system stream background prev rawInput ro
        hne hexit hclear hstatus] at hres
      cases hb : responses_message_turn stream background prev ro with
      | none =>
        rw [hb] at hres
        exact absurd hres (by simp)
      | some pb =>
        rw [hb] at hres
        have hx := Option.some.inj hres
        rw [← hx]

/-- Witness for C8: `/QUIT` (mixed case, padded) terminates both loops with a
farewell; an ordinary message does not terminate either loop. -/
theorem C8_exit_commands_witness :
    ((run_chat_completions_step "m" "sys" true [] " /QUIT "
        ⟨RemoteResult.exn "x", RemoteResult.exn "x"⟩).action = .brk
      ∧ Ev.echo "Goodbye!" true
          ∈ (run_chat_completions_step "m" "sys" true [] " /QUIT "
              ⟨RemoteResult.exn "x", RemoteResult.exn "x"⟩).out
      ∧ run_responses_api_step "m" "sys" true false none " /QUIT "
          ⟨RemoteResult.exn "x", RemoteResult.exn "x", []⟩
          = some ⟨none, .brk, [Ev.echo "Goodbye!" true], none⟩)
    ∧ ((run_chat_completions_step "m" "sys" true [] "hello"
          ⟨RemoteResult.exn "x", RemoteResult.exn "x"⟩).action = .cont
      ∧ ∀ res, run_responses_api_step "m" "sys" true false none "hello"
          ⟨RemoteResult.exn "x", RemoteResult.exn "x", []⟩ = some res →
            res.action = .cont) :=
  ⟨(C8_exit_commands "m" "sys" true false [] none " /QUIT "
      ⟨RemoteResult.exn "x", RemoteResult.exn "x"⟩
      ⟨RemoteResult.exn "x", RemoteResult.exn "x", []⟩).1 (by decide),
   (C8_exit_commands "m" "sys" true false [] none "hello"
      ⟨RemoteResult.exn "x", RemoteResult.exn "x"⟩
      ⟨RemoteResult.exn "x", RemoteResult.exn "x", []⟩).2
      (by decide) (by decide) (by decide) (by decide)⟩

/-- The streamed call raises `e`: at the call itself, or mid-iteration after
some yielded events. -/
def streamRaises (c : RemoteResult (StreamOutcome StreamEvent)) (e : String) : Prop :=
  c = .exn e ∨ ∃ items, c = .ok ⟨items, some e⟩

/-- In the request shape selected by `background` × `stream`, some remote
call of the turn raises the exception `e` (for background polling: the create
call or one of the retrieve calls). -/
def respTurnRaises (o : RespOracle) (stream background : Bool) (e : String) : Prop :=
  if background then
    if stream then streamRaises o.createStream e
    else o.createPlain = .exn e
      ∨ ∃ r, o.createPlain = .ok r ∧ ∃ evs, pollLoop r 0 o.retrieves = .raised e evs
  else if stream then streamRaises o.createStream e
  else o.createPlain = .exn e

/-- C2: in responses mode, in each of the four request shapes, if the remote
call raises then the error is printed inline, the loop continues, and the
stored previous-response identifier after the failed turn equals its value
before the turn. -/
theorem C2_responses_error_atomic (model system : String) (stream background : Bool)
    (prev : Option String) (rawInput : String) (o : RespOracle) (e : String)
    (hne : pyStrip rawInput ≠ "")
    (hexit : pyLower (pyStrip rawInput) ∉ EXIT_COMMANDS)
    (hclear : pyLower (pyStrip rawInput) ≠ "/clear")
    (hstatus : pyLower (pyStrip rawInput) ≠ "/status")
    (hraise : respTurnRaises o stream background e) :
    ∃ res, run_responses_api_step model system stream background prev rawInput o = some res
      ∧ res.prev = prev ∧ res.action = .cont
      ∧ Ev.echo ("\nError: " ++ e) true ∈ res.out := by
  have hturn : ∃ evs, responses_message_turn stream background prev o = some (prev, evs)
      ∧ Ev.echo ("\nError: " ++ e) true ∈ evs := by
    unfold respTurnRaises at hraise
    unfold responses_message_turn
    cases background with
    | true =>
      cases stream with
      | true =>
        rcases hraise with hcall | ⟨items, hcall⟩
        · exact ⟨errEcho e, by simp [hcall, stream_turn], by simp [errEcho]⟩
        · exact ⟨(processEventsFrom "" none items).2.2 ++ errEcho e,
            by simp [hcall, stream_turn], by simp [errEcho]⟩
      | false =>
        rcases hraise with hcall | ⟨r, hr1, evs, hr2⟩
        · exact ⟨errEcho e, by simp [hcall], by simp [errEcho]⟩
        · exact ⟨[Ev.echo "[Background processing started...]" false] ++ evs ++ errEcho e,
            by simp [hr1, hr2], by simp [errEcho]⟩
    | false =>
      cases stream with
      | true =>
        rcases hraise with hcall | ⟨items, hcall⟩
        · exact ⟨errEcho e, by simp [hcall, stream_turn], by simp [errEcho]⟩
        · exact ⟨(processEventsFrom "" none items).2.2 ++ errEcho e,
            by simp [hcall, stream_turn], by simp [errEcho]⟩
      | false =>
        have hcall : o.createPlain = RemoteResult.exn e := by simpa using hraise
        exact ⟨errEcho e, by simp [hcall], by simp [errEcho]⟩
  obtain ⟨evs, hturn, hmem⟩ := hturn
  refine ⟨⟨prev, .cont,
      [Ev.echo "" true, Ev.echo "Assistant: " false] ++ evs ++ [Ev.echo "" true],
      some (build_request_params model system (pyStrip rawInput) prev background stream)⟩,
    ?_, rfl, rfl, by simp [hmem]⟩
  rw [run_responses_api_step_message model system stream background prev rawInput o
    hne hexit hclear hstatus, hturn]

/-- Witness for C2: a failed retrieve during background polling leaves the
held identifier unchanged and the loop interactive. -/
theorem C2_responses_error_atomic_witness :
    ∃ res, run_responses_api_step "m" "sys" false true (some "p") "go"
        ⟨RemoteResult.exn "unused", RemoteResult.ok ⟨"rid", "queued", none, []⟩,
          [RemoteResult.exn "net down"]⟩ = some res
      ∧ res.prev = some "p" ∧ res.action = .cont
      ∧ Ev.echo ("\nError: " ++ "net down") true ∈ res.out :=
  C2_responses_error_atomic "m" "sys" false true (some "p") "go"
    ⟨RemoteResult.exn "unused", RemoteResult.ok ⟨"rid", "queued", none, []⟩,
      [RemoteResult.exn "net down"]⟩ "net down"
    (by decide) (by decide) (by decide) (by decide)
    (Or.inr ⟨⟨"rid", "queued", none, []⟩, rfl, [Ev.sleep 1], by decide⟩)

/-- The event-loop accumulator of `process_streaming_events` computes: text
appended by the per-event deltas, the identifier of the last capturing event
(amended reading), and the per-event echoes. -/
theorem processEventsFrom_eq (events : List StreamEvent) :
    ∀ (t : String) (r : Option String),
      processEventsFrom t r events
        = (t ++ spec_streamed_text events,
           lastOr (spec_id_updates events) r,
           spec_streamed_out events) := by
  induction events with
  | nil =>
    intro t r
    simp [processEventsFrom, spec_streamed_text, spec_id_updates, spec_streamed_out, lastOr]
  | cons e rest ih =>
    intro t r
    rcases e with ⟨ty, d, resp, i⟩
    cases ty with
    | none =>
      cases d with
      | some dd =>
        simp [processEventsFrom, spec_streamed_text, spec_id_updates, spec_streamed_out,
          ih, lastOr, String.append_assoc]
      | none =>
        cases i with
        | some ii =>
          simp [processEventsFrom, spec_streamed_text, spec_id_updates, spec_streamed_out,
            ih, lastOr]
        | none =>
          simp [processEventsFrom, spec_streamed_text, spec_id_updates, spec_streamed_out,
            ih, lastOr]
    | some tys =>
      by_cases h1 : tys = "response.output_text.delta"
      · subst h1
        cases d with
        | some dd =>
          simp [processEventsFrom, spec_streamed_text, spec_id_updates, spec_streamed_out,
            ih, lastOr, String.append_assoc]
        | none =>
          simp [processEventsFrom, spec_streamed_text, spec_id_updates, spec_streamed_out,
            ih, lastOr]
      by_cases h2 : tys = "response.completed"
      · subst h2
        cases resp with
        | some rr =>
          cases hri : rr.id with
          | some ii =>
            simp [processEventsFrom, spec_streamed_text, spec_id_updates, spec_streamed_out,
              ih, lastOr, h1, hri]
          | none =>
            simp [processEventsFrom, spec_streamed_text, spec_id_updates, spec_streamed_out,
              ih, lastOr, h1, hri]
        | none =>
          simp [processEventsFrom, spec_streamed_text, spec_id_updates, spec_streamed_out,
            ih, lastOr, h1]
      by_cases h3 : tys = "response.queued"
      · subst h3
        simp [processEventsFrom, spec_streamed_text, spec_id_updates, spec_streamed_out,
          ih, lastOr, h1, h2]
      by_cases h4 : tys = "response.in_progress"
      · subst h4
        simp [processEventsFrom, spec_streamed_text, spec_id_updates, spec_streamed_out,
          ih, lastOr, h1, h2, h3]
      · simp [processEventsFrom, spec_streamed_text, spec_id_updates, spec_streamed_out,
          ih, lastOr, h1, h2, h3, h4]

/-- C5 counterexample: a type-less event carrying both a bare `delta` and a
bare `id` attribute.  The claim's identifier rule ("taken from ... type-less
events carrying a bare id attribute, with the last such event winning") says
the identifier `"y"` is captured; the code takes the `delta` branch of the
`elif` chain and captures no identifier. -/
theorem C5_counterexample :
    (process_streaming_events [⟨none, some "x", none, some "y"⟩]).2.1 = none
    ∧ lastOr (spec_id_updates_claimed [⟨none, some "x", none, some "y"⟩]) none
        = some "y" := by decide

/-- C5 (amended): for every finite event sequence, the accumulated text is
the in-order concatenation of the delta payloads of `output_text.delta`
events and of type-less bare-`delta` events; the returned identifier is the
last one captured from `completed` events or from type-less events carrying a
bare `id` attribute *and no delta attribute*; `queued` / `in_progress` events
print status markers and contribute no text; a newline is printed after the
sequence; and the caller's identifier update changes the stored identifier
only if an identifier was captured. -/
theorem C5_streaming_events (events : List StreamEvent) (prev : Option String) :
    (process_streaming_events events).1 = spec_streamed_text events
    ∧ (process_streaming_events events).2.1 = lastOr (spec_id_updates events) none
    ∧ (process_streaming_events events).2.2 = spec_streamed_out events ++ [Ev.echo "" true]
    ∧ (update_prev_from_stream prev (process_streaming_events events).2.1 ≠ prev →
        ∃ s, (process_streaming_events events).2.1 = some s
          ∧ update_prev_from_stream prev (process_streaming_events events).2.1 = some s) := by
  have h := processEventsFrom_eq events "" none
  have hp : process_streaming_events events
      = (spec_streamed_text events, lastOr (spec_id_updates events) none,
         spec_streamed_out events ++ [Ev.echo "" true]) := by
    unfold process_streaming_events
    rw [h]
    simp
  rw [hp]
  refine ⟨rfl, rfl, rfl, ?_⟩
  intro hne
  unfold update_prev_from_stream at hne ⊢
  cases hcap : lastOr (spec_id_updates events) none with
  | none =>
    rw [hcap] at hne
    simp [pyTruthyStrOpt] at hne
  | some s =>
    by_cases hs : s = ""
    · subst hs
      rw [hcap] at hne
      simp [pyTruthyStrOpt] at hne
    · exact ⟨s, rfl, by simp [pyTruthyStrOpt, hs]⟩

/-- Witness for C5 on a concrete event sequence: a delta, a queued marker, a
completed event carrying the identifier, and a trailing type-less delta. -/
theorem C5_streaming_events_witness :
    (process_streaming_events
        [⟨some "response.output_text.delta", some "a", none, none⟩,
         ⟨some "response.queued", none, none, none⟩,
         ⟨some "response.completed", none, some ⟨some "z"⟩, none⟩,
         ⟨none, some "b", none, none⟩]).1 = "ab"
    ∧ (∃ s, (process_streaming_events
          [⟨some "response.output_text.delta", some "a", none, none⟩,
           ⟨some "response.queued", none, none, none⟩,
           ⟨some "response.completed", none, some ⟨some "z"⟩, none⟩,
           ⟨none, some "b", none, none⟩]).2.1 = some s
        ∧ update_prev_from_stream none
            (process_streaming_events
              [⟨some "response.output_text.delta", some "a", none, none⟩,
               ⟨some "response.queued", none, none, none⟩,
               ⟨some "response.completed", none, some ⟨some "z"⟩, none⟩,
               ⟨none, some "b", none, none⟩]).2.1 = some s) :=
  ⟨(C5_streaming_events
      [⟨some "response.output_text.delta", some "a", none, none⟩,
       ⟨some "response.queued", none, none, none⟩,
       ⟨some "response.completed", none, some ⟨some "z"⟩, none⟩,
       ⟨none, some "b", none, none⟩] none).1,
   (C5_streaming_events
      [⟨some "response.output_text.delta", some "a", none, none⟩,
       ⟨some "response.queued", none, none, none⟩,
       ⟨some "response.completed", none, some ⟨some "z"⟩, none⟩,
       ⟨none, some "b", none, none⟩] none).2.2.2 (by decide)⟩

/-- C3 counterexample: the empty identifier.  A successful foreground
non-streaming turn stores `response.id` verbatim — here the empty string — so
`some ""` is a reachable held value; a turn holding `some ""` builds a
request that omits the system message (the identifier is held, i.e. not
`None`) yet carries no previous-response reference either (the guard
`if previous_response_id:` is falsy on `""`), contradicting "when one is
held ... the request carries the previous-response identifier as a
reference". -/
theorem C3_counterexample :
    run_responses_api_step "m" "sys" false false none "hi"
        ⟨RemoteResult.exn "unused", RemoteResult.ok ⟨"", "completed", some "ok", []⟩, []⟩
      = some ⟨some "", .cont,
          [Ev.echo "" true, Ev.echo "Assistant: " false, Ev.echo "ok" true, Ev.echo "" true],
          some (build_request_params "m" "sys" "hi" none false false)⟩
    ∧ (build_request_params "m" "sys" "hello" (some "") false false).input
        = [⟨"user", "hello"⟩]
    ∧ (build_request_params "m" "sys" "hello" (some "") false false).previous_response_id
        = none := by decide

/-- C3 (amended): the request input contains the system message iff no
previous-response identifier is held; when one is held the input is exactly
the new user message, and the request carries the identifier as a reference
provided it is non-empty (a held empty identifier is carried by neither
guard); after `/clear` the stored identifier is absent, so the next turn's
request again includes the system message. -/
theorem C3_request_contents (model system user_input : String)
    (prev : Option String) (background stream : Bool) :
    ((⟨"system", system⟩ : Msg)
        ∈ (build_request_params model system user_input prev background stream).input
      ↔ prev = none)
    ∧ (prev = none →
        (build_request_params model system user_input prev background stream).input
          = [⟨"system", system⟩, ⟨"user", user_input⟩])
    ∧ (prev ≠ none →
        (build_request_params model system user_input prev background stream).input
          = [⟨"user", user_input⟩])
    ∧ (∀ s, prev = some s → s ≠ "" →
        (build_request_params model system user_input prev
            background stream).previous_response_id = some s)
    ∧ (prev = some "" →
        (build_request_params model system user_input prev
            background stream).previous_response_id = none)
    ∧ (∀ rawInput o res, pyLower (pyStrip rawInput) = "/clear" →
        run_responses_api_step model system stream background prev rawInput o = some res →
          res.prev = none
          ∧ (⟨"system", system⟩ : Msg)
              ∈ (build_request_params model system user_input res.prev
                  background stream).input) := by
  refine ⟨?_, ?_, ?_, ?_, ?_, ?_⟩
  · cases prev with
    | none => simp [build_request_params]
    | some s => simp [build_request_params, Msg.mk.injEq]
  · intro h
    subst h
    simp [build_request_params]
  · intro h
    cases prev with
    | none => exact absurd rfl h
    | some s => simp [build_request_params]
  · intro s hs hne
    subst hs
    simp [build_request_params, pyTruthyStrOpt, hne]
  · intro h
    subst h
    simp [build_request_params, pyTruthyStrOpt]
  · intro rawInput o res hcl hstep
    have hne : pyStrip rawInput ≠ "" := by
      intro h0
      rw [h0] at hcl
      exact absurd hcl (by decide)
    have hexit : pyLower (pyStrip rawInput) ∉ EXIT_COMMANDS := by
      rw [hcl]; decide
    have hstep2 : run_responses_api_step model system stream background prev rawInput o
        = some ⟨none, .cont,
            [Ev.echo "Conversation cleared (stateful context reset).\n" true], none⟩ := by
      unfold run_responses_api_step
      rw [if_neg hne, if_neg hexit, if_pos hcl]
    rw [hstep2] at hstep
    have hres := Option.some.inj hstep
    subst hres
    exact ⟨rfl, by simp [build_request_params]⟩

/-- Witness for C3: a held non-empty identifier is carried and suppresses the
system message; after a `/clear` turn the held identifier is absent and the
next request again contains the system message. -/
theorem C3_request_contents_witness :
    (build_request_params "m" "sys" "hi" (some "id1") false true).input = [⟨"user", "hi"⟩]
    ∧ (build_request_params "m" "sys" "hi" (some "id1") false true).previous_response_id
        = some "id1"
    ∧ ((RespStep.mk none .cont
          [Ev.echo "Conversation cleared (stateful context reset).\n" true] none).prev = none
        ∧ (⟨"system", "sys"⟩ : Msg)
            ∈ (build_request_params "m" "sys" "hi"
                (RespStep.mk none .cont
                  [Ev.echo "Conversation cleared (stateful context reset).\n" true] none).prev
                false true).input) :=
  ⟨(C3_request_contents "m" "sys" "hi" (some "id1") false true).2.2.1 (by decide),
   (C3_request_contents "m" "sys" "hi" (some "id1") false true).2.2.2.1 "id1" rfl (by decide),
   (C3_request_contents "m" "sys" "hi" (some "id1") false true).2.2.2.2.2 "/CLEAR"
     ⟨RemoteResult.exn "x", RemoteResult.exn "x", []⟩
     (RespStep.mk none .cont
       [Ev.echo "Conversation cleared (stateful context reset).\n" true] none)
     (by decide) (by decide)⟩

/-- Characterization of a finished poll: the recorded events are exactly the
spec trace (a 1-unit sleep before every re-fetch, a marker after every 5th
poll), the final count bounds the starting count, and the final status is not
pending. -/
theorem pollLoop_done_trace (fetches : List (RemoteResult RespObj)) :
    ∀ (r : RespObj) (c : Nat) (final : RespObj) (n : Nat) (evs : List Ev),
      pollLoop r c fetches = .done final n evs →
        c ≤ n ∧ evs = spec_poll_trace_from c (n - c)
        ∧ ¬(final.status = "queued" ∨ final.status = "in_progress") := by
  induction fetches with
  | nil =>
    intro r c final n evs h
    by_cases hp : r.status = "queued" ∨ r.status = "in_progress"
    · simp only [pollLoop] at h
      rw [if_pos hp] at h
      exact absurd h (by simp)
    · simp only [pollLoop] at h
      rw [if_neg hp] at h
      injection h with h1 h2 h3
      subst h1
      subst h2
      subst h3
      exact ⟨Nat.le_refl c, by simp [spec_poll_trace_from], hp⟩
  | cons f rest ih =>
    intro r c final n evs h
    by_cases hp : r.status = "queued" ∨ r.status = "in_progress"
    · simp only [pollLoop] at h
      rw [if_pos hp] at h
      cases f with
      | exn e => exact absurd h (by simp [PollOutcome.withEvs])
      | ok r2 =>
        dsimp only at h
        cases hrec : pollLoop r2 (c + 1) rest with
        | raised e2 evs2 =>
          rw [hrec] at h
          exact absurd h (by simp [PollOutcome.withEvs])
        | starved evs2 =>
          rw [hrec] at h
          exact absurd h (by simp [PollOutcome.withEvs])
        | done f2 c2 evs2 =>
          rw [hrec] at h
          simp only [PollOutcome.withEvs] at h
          injection h with h1 h2 h3
          obtain ⟨hle, htr, hnp⟩ := ih r2 (c + 1) f2 c2 evs2 hrec
          rw [← h1, ← h2, ← h3]
          refine ⟨Nat.le_of_succ_le hle, ?_, hnp⟩
          have hk : c2 - c = (c2 - (c + 1)) + 1 := by omega
          rw [hk]
          simp only [spec_poll_trace_from]
          simp [htr]
    · simp only [pollLoop] at h
      rw [if_neg hp] at h
      injection h with h1 h2 h3
      subst h1
      subst h2
      subst h3
      exact ⟨Nat.le_refl c, by simp [spec_poll_trace_from], hp⟩

/-- C4: in background non-streaming mode, after the create call returns an
identifier and an initial status, the client re-fetches the job after a
1-unit sleep for as long as the status is queued or in_progress, printing a
progress marker exactly on every 5th poll (the recorded events equal
`spec_poll_trace n`); on exit it prints the extracted text for `completed`, a
failure notice for `failed`, a cancellation notice for `cancelled`, an
unexpected-status notice otherwise; and the previous-response identifier is
updated to the job's identifier exactly when the final status is
`completed`. -/
theorem C4_background_polling (model system : String) (prev : Option String)
    (rawInput : String) (o : RespOracle) (r0 final : RespObj) (n : Nat) (evs : List Ev)
    (hne : pyStrip rawInput ≠ "")
    (hexit : pyLower (pyStrip rawInput) ∉ EXIT_COMMANDS)
    (hclear : pyLower (pyStrip rawInput) ≠ "/clear")
    (hstatus : pyLower (pyStrip rawInput) ≠ "/status")
    (hcreate : o.createPlain = .ok r0)
    (hpoll : pollLoop r0 0 o.retrieves = .done final n evs) :
    evs = spec_poll_trace n
    ∧ ¬(final.status = "queued" ∨ final.status = "in_progress")
    ∧ run_responses_api_step model system false true prev rawInput o
        = some ⟨(if final.status = "completed" then some r0.id else prev), .cont,
            [Ev.echo "" true, Ev.echo "Assistant: " false]
              ++ ([Ev.echo "[Background processing started...]" false] ++ evs
                  ++ [Ev.echo "" true, Ev.echo "Assistant: " false]
                  ++ [(if final.status = "completed" then
                        Ev.echo (extract_response_text final) true
                      else if final.status = "failed" then
                        Ev.echo ("[Background task failed: " ++ final.status ++ "]") true
                      else if final.status = "cancelled" then
                        Ev.echo "[Background task was cancelled]" true
                      else
                        Ev.echo ("[Unexpected status: " ++ final.status ++ "]") true)])
              ++ [Ev.echo "" true],
            some (build_request_params model system (pyStrip rawInput) prev true false)⟩ := by
  obtain ⟨-, htr, hnp⟩ := pollLoop_done_trace o.retrieves r0 0 final n evs hpoll
  refine ⟨by simpa [spec_poll_trace] using htr, hnp, ?_⟩
  have hturn : responses_message_turn false true prev o
      = some ((if final.status = "completed" then some r0.id else prev),
          [Ev.echo "[Background processing started...]" false] ++ evs
            ++ [Ev.echo "" true, Ev.echo "Assistant: " false]
            ++ [(if final.status = "completed" then
                  Ev.echo (extract_response_text final) true
                else if final.status = "failed" then
                  Ev.echo ("[Background task failed: " ++ final.status ++ "]") true
                else if final.status = "cancelled" then
                  Ev.echo "[Background task was cancelled]" true
                else
                  Ev.echo ("[Unexpected status: " ++ final.status ++ "]") true)]) := by
    unfold responses_message_turn
    simp only [hcreate, hpoll]
    by_cases h1 : final.status = "completed"
    · simp [h1]
    by_cases h2 : final.status = "failed"
    · simp [h1, h2]
    by_cases h3 : final.status = "cancelled"
    · simp [h1, h2, h3]
    · simp [h1, h2, h3]
  rw [run_responses_api_step_message model system false true prev rawInput o
    hne hexit hclear hstatus, hturn]

/-- Witness for C4: five polls over pending statuses, a marker exactly on the
5th, completion text printed, identifier stored. -/
theorem C4_background_polling_witness :
    ([Ev.sleep 1, Ev.sleep 1, Ev.sleep 1, Ev.sleep 1, Ev.sleep 1, Ev.echo "." false]
        : List Ev) = spec_poll_trace 5
    ∧ ¬(("completed" : String) = "queued" ∨ ("completed" : String) = "in_progress")
    ∧ run_responses_api_step "m" "sys" false true none "hi"
        ⟨RemoteResult.exn "unused", RemoteResult.ok ⟨"rid", "queued", none, []⟩,
          [RemoteResult.ok ⟨"rid", "in_progress", none, []⟩,
           RemoteResult.ok ⟨"rid", "in_progress", none, []⟩,
           RemoteResult.ok ⟨"rid", "in_progress", none, []⟩,
           RemoteResult.ok ⟨"rid", "in_progress", none, []⟩,
           RemoteResult.ok ⟨"rid", "completed", some "done", []⟩]⟩
      = some ⟨some "rid", .cont,
          [Ev.echo "" true, Ev.echo "Assistant: " false,
           Ev.echo "[Background processing started...]" false,
           Ev.sleep 1, Ev.sleep 1, Ev.sleep 1, Ev.sleep 1, Ev.sleep 1, Ev.echo "." false,
           Ev.echo "" true, Ev.echo "Assistant: " false,
           Ev.echo "done" true, Ev.echo "" true],
          some (build_request_params "m" "sys" "hi" none true false)⟩ :=
  C4_background_polling "m" "sys" none "hi"
    ⟨RemoteResult.exn "unused", RemoteResult.ok ⟨"rid", "queued", none, []⟩,
      [RemoteResult.ok ⟨"rid", "in_progress", none, []⟩,
       RemoteResult.ok ⟨"rid", "in_progress", none, []⟩,
       RemoteResult.ok ⟨"rid", "in_progress", none, []⟩,
       RemoteResult.ok ⟨"rid", "in_progress", none, []⟩,
       RemoteResult.ok ⟨"rid", "completed", some "done", []⟩]⟩
    ⟨"rid", "queued", none, []⟩ ⟨"rid", "completed", some "done", []⟩ 5
    [Ev.sleep 1, Ev.sleep 1, Ev.sleep 1, Ev.sleep 1, Ev.sleep 1, Ev.echo "." false]
    (by decide) (by decide) (by decide) (by decide) rfl (by decide)

end Mantle
